import Mathlib

/-!
Shallow embedding of the Model-Update-View state machine of
src/src/application.rs (bjk2k/template-rust).

The Rust `Model` holds a `counter: i32`, a `running_state` enum and a
fixed 32-byte `api_key` payload. The pure transition function
`update : (Model, Message) -> (Model, Option<Message>)` is embedded
below. The `i32` counter is embedded as an `Int` together with the
two's-complement wrapping function `wrap32`, so that the arithmetic
`model.counter + 1` / `model.counter - 1` matches the machine-integer
behaviour of the compiled program at the boundaries of the `i32` range.
-/

/-- Length of the API key payload: `pub const API_KEY_LEN: usize = 32`. -/
def API_KEY_LEN : Nat := 32

/-- Two's-complement wrap of an integer into the `i32` range
`[-2^31, 2^31)`, the release-mode semantics of Rust `i32` addition and
subtraction. -/
def wrap32 (x : Int) : Int := (x + 2 ^ 31) % 2 ^ 32 - 2 ^ 31

/-- The `RunningState` enum: `Running` (the `#[default]`) or `Done`. -/
inductive RunningState where
  | Running : RunningState
  | Done : RunningState
deriving DecidableEq, Repr

/-- The default of `RunningState` is `Running` (`#[default]` in the source). -/
def RunningState.defaultState : RunningState := RunningState.Running

/-- The `Model` struct: `counter: i32`, `running_state: RunningState`,
`api_key: [u8; API_KEY_LEN]`. Bytes are embedded as `Fin 256`. -/
structure Model where
  counter : Int
  running_state : RunningState
  api_key : Fin API_KEY_LEN → Fin 256

/-- Constructor `Model::new(api_key)`: counter `0`, default running state,
the supplied payload. -/
def Model.new (api_key : Fin API_KEY_LEN → Fin 256) : Model :=
  { api_key := api_key
    running_state := RunningState.defaultState
    counter := 0 }

/-- The `Message` enum: `Increment`, `Decrement`, `Reset`, `Quit`. -/
inductive Message where
  | Increment : Message
  | Decrement : Message
  | Reset : Message
  | Quit : Message
deriving DecidableEq, Repr

/-- The `update` function of src/src/application.rs, lines 121-161:
a pure transition `(Model, Message) -> (Model, Option<Message>)`.
`Increment` adds 1 (i32 arithmetic, hence `wrap32`) and emits a follow-up
`Reset` when the pre-transition counter exceeds 50; `Decrement` subtracts 1
and emits `Reset` when the pre-transition counter is below -50; `Reset`
zeroes the counter; `Quit` sets `running_state` to `Done`. -/
def update (model : Model) (msg : Message) : Model × Option Message :=
  match msg with
  | Message.Increment =>
    let new_model : Model := { model with counter := wrap32 (model.counter + 1) }
    if model.counter > 50 then
      (new_model, some Message.Reset)
    else
      (new_model, none)
  | Message.Decrement =>
    let new_model : Model := { model with counter := wrap32 (model.counter - 1) }
    if model.counter < -50 then
      (new_model, some Message.Reset)
    else
      (new_model, none)
  | Message.Reset =>
    ({ model with counter := 0 }, none)
  | Message.Quit =>
    ({ model with running_state := RunningState.Done }, none)

/-- Termination measure for the follow-up drain loop: `Increment` and
`Decrement` can chain into at most one `Reset`, which chains into nothing. -/
def msgWeight : Option Message → Nat
  | none => 0
  | some Message.Increment => 2
  | some Message.Decrement => 2
  | some Message.Reset => 1
  | some Message.Quit => 1

/-- The inner `while current_msg.is_some()` loop of `application_loop`:
starting from a model and a pending optional message, repeatedly apply
`update` and feed the follow-up back in until no message is pending. -/
def drain (m : Model) (om : Option Message) : Model :=
  match om with
  | none => m
  | some msg =>
    let r := update m msg
    drain r.1 r.2
termination_by msgWeight om
decreasing_by
  cases msg <;> simp only [update] <;> (try split) <;> simp [msgWeight]

/-- One full handled message, as the event loop processes it: apply
`update` to the message and drain all follow-ups. -/
def processMessage (m : Model) (msg : Message) : Model :=
  drain m (some msg)

/-- A concrete all-zero payload, used for witnesses and counterexamples. -/
def p0 : Fin API_KEY_LEN → Fin 256 := fun _ => 0

theorem drain_none (m : Model) : drain m none = m := by
  rw [drain]

theorem drain_some (m : Model) (msg : Message) :
    drain m (some msg) = drain (update m msg).1 (update m msg).2 := by
  rw [drain]

theorem wrap32_eq (x : Int) (h1 : -(2 ^ 31) ≤ x) (h2 : x < 2 ^ 31) :
    wrap32 x = x := by
  unfold wrap32
  have h0 : (0 : Int) ≤ x + 2 ^ 31 := by omega
  have hlt : x + 2 ^ 31 < 2 ^ 32 := by omega
  rw [Int.emod_eq_of_lt h0 hlt]
  omega

theorem processMessage_increment_low (m : Model)
    (h1 : -(2 ^ 31) ≤ m.counter) (h2 : m.counter ≤ 50) :
    processMessage m Message.Increment = { m with counter := m.counter + 1 } := by
  have hif : ¬ (m.counter > 50) := by omega
  have hw : wrap32 (m.counter + 1) = m.counter + 1 :=
    wrap32_eq _ (by omega) (by omega)
  unfold processMessage
  rw [drain_some]
  simp only [update, if_neg hif]
  rw [drain_none, hw]

theorem processMessage_increment_high (m : Model) (h : m.counter > 50) :
    processMessage m Message.Increment = { m with counter := 0 } := by
  unfold processMessage
  rw [drain_some]
  simp only [update, if_pos h]
  rw [drain_some]
  simp only [update]
  rw [drain_none]

theorem incr_run (p : Fin API_KEY_LEN → Fin 256) :
    ∀ n : Nat, n ≤ 51 →
      (fun m => processMessage m Message.Increment)^[n] (Model.new p) =
        { counter := (n : Int), running_state := RunningState.Running, api_key := p } := by
  intro n
  induction n with
  | zero =>
    intro _
    simp [Model.new, RunningState.defaultState]
  | succ k ih =>
    intro h
    rw [Function.iterate_succ_apply', ih (by omega)]
    have h50 : ((k : Int)) ≤ 50 := by
      have hk : k ≤ 50 := by omega
      exact_mod_cast hk
    have h31 : -(2 ^ 31) ≤ ((k : Int)) := by omega
    rw [processMessage_increment_low _ h31 h50]
    push_cast
    rfl

/-- Concrete Model with counter 60 used by the witness of C2. -/
def m60 : Model :=
  { counter := 60, running_state := RunningState.Running, api_key := p0 }

/-- Concrete Model with counter -60 used by the witness of C3. -/
def mNeg60 : Model :=
  { counter := -60, running_state := RunningState.Running, api_key := p0 }

/-- Concrete Model with running state Done used by the witness of C9. -/
def mDone : Model :=
  { counter := 7, running_state := RunningState.Done, api_key := p0 }

/-- Claim C1, counterexample: starting from the Model with counter 0 (all-zero
payload), sending Increment 51 times sequentially and draining follow-ups
after each application leaves the counter at 51, not 0. The 51st increment
sees a pre-increment counter of 50, and the code emits the follow-up Reset
only when the pre-increment counter strictly exceeds 50, so no Reset is ever
triggered in those 51 steps. -/
theorem c1_counterexample :
    ((fun m => processMessage m Message.Increment)^[51] (Model.new p0)).counter ≠ 0 := by
  rw [incr_run p0 51 (by omega)]
  norm_num

/-- Claim C1 (amended): starting from a Model with counter 0, applying
Increment 52 times sequentially, draining any follow-up message after each
application, yields a final counter of 0: the 52nd increment sees
pre-increment counter 51, which exceeds 50, so it takes the counter to 52
and triggers a follow-up Reset, leaving 0. -/
theorem c1_increment_52_drained_zero (p : Fin API_KEY_LEN → Fin 256) :
    ((fun m => processMessage m Message.Increment)^[52] (Model.new p)).counter = 0 := by
  have h52 : (52 : Nat) = 51 + 1 := rfl
  rw [h52, Function.iterate_succ_apply', incr_run p 51 (by omega),
    processMessage_increment_high _ (show (51 : Int) > 50 by norm_num)]

/-- Claim C2, counterexample: at counter 2147483647 (the i32 maximum), which
satisfies c > 50, Increment does not produce counter c + 1: the i32 addition
wraps to -2147483648. -/
theorem c2_counterexample :
    50 < (2147483647 : Int) ∧
      (update { counter := 2147483647, running_state := RunningState.Running,
                api_key := p0 } Message.Increment).1.counter ≠ 2147483647 + 1 := by
  refine ⟨by norm_num, ?_⟩
  norm_num [update, wrap32]

/-- Claim C2 (amended): for every Model whose counter c satisfies
50 < c < 2147483647, Increment returns counter c + 1 with follow-up
Some Reset, and applying the follow-up Reset to that result yields
counter 0. -/
theorem c2_increment_above_band (m : Model) (h1 : 50 < m.counter)
    (h2 : m.counter < 2147483647) :
    (update m Message.Increment).1.counter = m.counter + 1 ∧
      (update m Message.Increment).2 = some Message.Reset ∧
      (update (update m Message.Increment).1 Message.Reset).1.counter = 0 := by
  have hif : m.counter > 50 := h1
  simp only [update, if_pos hif]
  refine ⟨wrap32_eq _ (by omega) (by omega), ?_, ?_⟩ <;> first | rfl | trivial

/-- Witness for C2 at the concrete Model with counter 60. -/
theorem c2_witness :
    50 < m60.counter ∧ m60.counter < 2147483647 ∧
      ((update m60 Message.Increment).1.counter = m60.counter + 1 ∧
        (update m60 Message.Increment).2 = some Message.Reset ∧
        (update (update m60 Message.Increment).1 Message.Reset).1.counter = 0) :=
  ⟨by decide, by decide, c2_increment_above_band m60 (by decide) (by decide)⟩

/-- Claim C3, counterexample: at counter -2147483648 (the i32 minimum), which
satisfies c < -50, Decrement does not produce counter c - 1: the i32
subtraction wraps to 2147483647. -/
theorem c3_counterexample :
    (-2147483648 : Int) < -50 ∧
      (update { counter := -2147483648, running_state := RunningState.Running,
                api_key := p0 } Message.Decrement).1.counter ≠ -2147483648 - 1 := by
  refine ⟨by norm_num, ?_⟩
  norm_num [update, wrap32]

/-- Claim C3 (amended): for every Model whose counter c satisfies
-2147483648 < c < -50, Decrement returns counter c - 1 with follow-up
Some Reset, and applying the follow-up Reset to that result yields
counter 0. -/
theorem c3_decrement_below_band (m : Model) (h1 : m.counter < -50)
    (h2 : -2147483648 < m.counter) :
    (update m Message.Decrement).1.counter = m.counter - 1 ∧
      (update m Message.Decrement).2 = some Message.Reset ∧
      (update (update m Message.Decrement).1 Message.Reset).1.counter = 0 := by
  simp only [update, if_pos h1]
  refine ⟨wrap32_eq _ (by omega) (by omega), ?_, ?_⟩ <;> first | rfl | trivial

/-- Witness for C3 at the concrete Model with counter -60. -/
theorem c3_witness :
    mNeg60.counter < -50 ∧ -2147483648 < mNeg60.counter ∧
      ((update mNeg60 Message.Decrement).1.counter = mNeg60.counter - 1 ∧
        (update mNeg60 Message.Decrement).2 = some Message.Reset ∧
        (update (update mNeg60 Message.Decrement).1 Message.Reset).1.counter = 0) :=
  ⟨by decide, by decide, c3_decrement_below_band mNeg60 (by decide) (by decide)⟩

/-- Claim C4: for every Model whose counter c satisfies -50 ≤ c ≤ 50, neither
Increment nor Decrement emits a follow-up message. -/
theorem c4_band_no_followup (m : Model) (h1 : -50 ≤ m.counter)
    (h2 : m.counter ≤ 50) :
    (update m Message.Increment).2 = none ∧
      (update m Message.Decrement).2 = none := by
  constructor
  · have hif : ¬ (m.counter > 50) := by omega
    simp [update, hif]
  · have hif : ¬ (m.counter < -50) := by omega
    simp [update, hif]

/-- Witness for C4 at the freshly constructed Model (counter 0). -/
theorem c4_witness :
    -50 ≤ (Model.new p0).counter ∧ (Model.new p0).counter ≤ 50 ∧
      ((update (Model.new p0) Message.Increment).2 = none ∧
        (update (Model.new p0) Message.Decrement).2 = none) :=
  ⟨by decide, by decide, c4_band_no_followup (Model.new p0) (by decide) (by decide)⟩

/-- Claim C5: for every Model, Reset yields counter 0 and no follow-up,
regardless of the prior counter, running state, or payload. -/
theorem c5_reset_zero_no_followup (m : Model) :
    (update m Message.Reset).1.counter = 0 ∧ (update m Message.Reset).2 = none :=
  ⟨rfl, rfl⟩

/-- Claim C6: for every Model, Quit yields running state Done, leaves the
counter and the 32-byte payload unchanged, and emits no follow-up. -/
theorem c6_quit_done_frame (m : Model) :
    (update m Message.Quit).1.running_state = RunningState.Done ∧
      (update m Message.Quit).1.counter = m.counter ∧
      (update m Message.Quit).1.api_key = m.api_key ∧
      (update m Message.Quit).2 = none :=
  ⟨rfl, rfl, rfl, rfl⟩

/-- Claim C7: applying Quit twice in sequence yields the same Model as
applying it once, and the running state remains Done. -/
theorem c7_quit_idempotent (m : Model) :
    (update (update m Message.Quit).1 Message.Quit).1 = (update m Message.Quit).1 ∧
      (update (update m Message.Quit).1 Message.Quit).1.running_state =
        RunningState.Done :=
  ⟨rfl, rfl⟩

/-- Claim C8: for every Model and every Message variant, the returned Model
has the same 32-byte payload as the input Model. -/
theorem c8_payload_invariant (m : Model) (msg : Message) :
    (update m msg).1.api_key = m.api_key := by
  cases msg <;> simp only [update] <;> (try split) <;> rfl

/-- Claim C9: the running state is monotonic under update: once Done, every
Message leaves it Done. -/
theorem c9_done_monotonic (m : Model) (msg : Message)
    (h : m.running_state = RunningState.Done) :
    (update m msg).1.running_state = RunningState.Done := by
  cases msg <;> simp only [update] <;> (try split) <;> exact h

/-- Witness for C9 at the concrete Done Model, with message Increment. -/
theorem c9_witness :
    mDone.running_state = RunningState.Done ∧
      (update mDone Message.Increment).1.running_state = RunningState.Done :=
  ⟨by decide, c9_done_monotonic mDone Message.Increment (by decide)⟩

/-- Claim C10: Model.new on a 32-byte payload yields counter 0, running
state Running, and exactly the supplied payload. -/
theorem c10_model_new (p : Fin API_KEY_LEN → Fin 256) :
    (Model.new p).counter = 0 ∧
      (Model.new p).running_state = RunningState.Running ∧
      (Model.new p).api_key = p :=
  ⟨rfl, rfl, rfl⟩
